import Mathlib

/-!
Verification development for the photo_tagging repository.

The development shallowly embeds the two scripts of the repository:

* `date_correct.py` — the Timestamp Reconciler.  Filenames are matched
  against two date patterns, a candidate timestamp is derived from the
  matched groups, and the EXIF timestamp tags of the file are updated
  through exiftool.  We model filenames as `String` / `List Char`, the
  EXIF timestamp state of one file as `ExifDates` (each tag optionally
  present), and a call to `helper.set_tags` as a write intent: a list of
  `(ExifTag × RawDate)` pairs mirroring the Python dict passed to
  exiftool.  Exceptions that the code catches yield `none` (no write);
  exceptions that escape a function are `Except.error`.

* `tagger.py` — the Content-Tag Reconciler.  The provider interaction
  (`describe_image_by_model`, which may raise) is abstracted as an
  `Except String String` input, and `json.loads` (Python standard
  library, not repository code) as a `String → Except String JsonValue`
  parameter: `json.loads` either returns a parsed value or raises
  `json.JSONDecodeError`, which is exactly the `Except` shape.
-/

/-! ### Dates

Python `datetime` objects are modelled as validated component records.
`datetime(...)` construction is `mkDatetime`, which refuses illegal
calendar dates exactly as the Python constructor does (raising
`ValueError`, modelled as `none`).  Subtraction of two datetimes in
seconds (`(d1 - d2).total_seconds()`) is the difference of
`totalSeconds`, computed over the proleptic Gregorian calendar the same
way `datetime.toordinal` is. -/

structure RawDate where
  year : Nat
  month : Nat
  day : Nat
  hour : Nat
  minute : Nat
  second : Nat
deriving DecidableEq, Repr

def isLeapYear (y : Nat) : Bool :=
  y % 4 == 0 && (y % 100 != 0 || y % 400 == 0)

def daysInMonth (y m : Nat) : Nat :=
  if m = 2 then (if isLeapYear y then 29 else 28)
  else if m = 4 ∨ m = 6 ∨ m = 9 ∨ m = 11 then 30
  else 31

/-- Validity test of the `datetime(year, month, day, hour, minute, second)`
constructor: `MINYEAR ≤ year ≤ MAXYEAR`, a legal calendar day, and
in-range time fields. -/
def validDate (d : RawDate) : Bool :=
  decide (1 ≤ d.year ∧ d.year ≤ 9999 ∧ 1 ≤ d.month ∧ d.month ≤ 12 ∧
    1 ≤ d.day ∧ d.day ≤ daysInMonth d.year d.month ∧
    d.hour ≤ 23 ∧ d.minute ≤ 59 ∧ d.second ≤ 59)

/-- `datetime(...)`: `none` models the `ValueError` raised on an illegal
date. -/
def mkDatetime (d : RawDate) : Option RawDate :=
  if validDate d then some d else none

/-- Days before January 1st of year `y` in the proleptic Gregorian
calendar (as in `datetime.date.toordinal`). -/
def daysBeforeYear (y : Nat) : Int :=
  (365 * (y - 1) + (y - 1) / 4 + (y - 1) / 400 : Nat) - ((y - 1) / 100 : Nat)

def daysBeforeMonth (y m : Nat) : Nat :=
  ((List.range (m - 1)).map (fun k => daysInMonth y (k + 1))).sum

def toOrdinal (d : RawDate) : Int :=
  daysBeforeYear d.year + daysBeforeMonth d.year d.month + d.day

def totalSeconds (d : RawDate) : Int :=
  toOrdinal d * 86400 + d.hour * 3600 + d.minute * 60 + d.second

/-- `dates_differ_more_than_24_hours` from `date_correct.py`:
`abs((date1 - date2).total_seconds()) > 24 * 3600`. -/
def dates_differ_more_than_24_hours (date1 date2 : RawDate) : Bool :=
  decide ((totalSeconds date1 - totalSeconds date2).natAbs > 24 * 3600)

/-! ### EXIF timestamp state and writes -/

inductive ExifTag where
  | dateTimeOriginal
  | createDate
  | modifyDate
deriving DecidableEq, Repr

/-- The three EXIF timestamp tags of one file as returned by
`helper.get_tags(file_path, tags=["DateTimeOriginal", "CreateDate",
"ModifyDate"])`: a tag absent from the file is absent from the returned
dict, modelled as `none`. -/
structure ExifDates where
  dateTimeOriginal : Option RawDate
  createDate : Option RawDate
  modifyDate : Option RawDate
deriving DecidableEq, Repr

/-- A write intent: the dict passed to `helper.set_tags`, in order. -/
abbrev WriteTags := List (ExifTag × RawDate)

/-- `set_exif_date(file_path, date, modify)` from `date_correct.py`,
returning the write issued for the file, if any.

* If `EXIF:DateTimeOriginal` or `EXIF:CreateDate` is missing, all three
  tags are set to `date` (when `modify` is true).
* Otherwise the code reads `tags[0]["EXIF:ModifyDate"]` unconditionally;
  when that tag is absent the lookup raises `KeyError`, which the
  enclosing `except` catches, so no write happens.
* With all three tags present, a write happens only when `date` differs
  from the original or create date by more than 24 hours, and then the
  dict is `{DateTimeOriginal: date, CreateDate: date_org, ModifyDate:
  date_org}` with `date_org` the pre-update original date. -/
def set_exif_date (tags : ExifDates) (date : RawDate) (modify : Bool) :
    Option WriteTags :=
  match tags.dateTimeOriginal, tags.createDate with
  | some date_org, some create_date =>
    match tags.modifyDate with
    | none => none
    | some _ =>
      if dates_differ_more_than_24_hours date date_org ||
         dates_differ_more_than_24_hours date create_date then
        if modify then
          some [(ExifTag.dateTimeOriginal, date),
                (ExifTag.createDate, date_org),
                (ExifTag.modifyDate, date_org)]
        else none
      else none
  | _, _ =>
    if modify then
      some [(ExifTag.dateTimeOriginal, date),
            (ExifTag.createDate, date),
            (ExifTag.modifyDate, date)]
    else none

/-- Effect of a `set_tags` write on the stored EXIF timestamps. -/
def applyWrite (tags : ExifDates) (w : WriteTags) : ExifDates :=
  w.foldl (fun t p =>
    match p.1 with
    | ExifTag.dateTimeOriginal => { t with dateTimeOriginal := some p.2 }
    | ExifTag.createDate => { t with createDate := some p.2 }
    | ExifTag.modifyDate => { t with modifyDate := some p.2 }) tags

/-! ### Filename patterns

`find_and_set_exif_date` runs two `re.search` calls on the basename.

Pattern A is `((\d{2})-(\d{2})-(\d{2}) (\d{2})[-\.](\d{2})[-\.](\d{2})(.*))`:
the three leading two-digit groups are unpacked, in order, into the
variables `yy`, `mm`, `dd`.  The groups are strings; the year is built
by the string concatenation `yyyy = f"20{yy}"` before `int` conversion,
so the groups are kept as character pairs here and the numeric
conversion (`pyInt`, Python `int` on a digit string) is a separate
step, exactly as in the source.

Pattern B is `((IMG|PANO)_(\d{4})(\d{2})(\d{2})_(\d{2})(\d{2})(\d{2})(.*))`.

`re.search` returns the leftmost match; the trailing `(.*)` group never
constrains whether a match exists. -/

structure AGroups where
  yy : Char × Char
  mm : Char × Char
  dd : Char × Char
  hh : Char × Char
  mi : Char × Char
  ss : Char × Char
deriving DecidableEq, Repr

/-- Match Pattern A anchored at the start of the character list. -/
def matchA : List Char → Option AGroups
  | a :: b :: '-' :: c :: d :: '-' :: e :: f :: ' ' :: g :: h :: s1 ::
      i :: j :: s2 :: k :: l :: _ =>
    if a.isDigit && b.isDigit && c.isDigit && d.isDigit && e.isDigit &&
       f.isDigit && g.isDigit && h.isDigit && i.isDigit && j.isDigit &&
       k.isDigit && l.isDigit &&
       (s1 == '-' || s1 == '.') && (s2 == '-' || s2 == '.') then
      some ⟨(a, b), (c, d), (e, f), (g, h), (i, j), (k, l)⟩
    else none
  | _ => none

/-- `re.search` with Pattern A: leftmost match. -/
def searchA : List Char → Option AGroups
  | [] => none
  | c :: cs =>
    match matchA (c :: cs) with
    | some g => some g
    | none => searchA cs

structure BGroups where
  yyyy : Char × Char × Char × Char
  mm : Char × Char
  dd : Char × Char
  hh : Char × Char
  mi : Char × Char
  ss : Char × Char
deriving DecidableEq, Repr

def matchBDigits : List Char → Option BGroups
  | y1 :: y2 :: y3 :: y4 :: m1 :: m2 :: d1 :: d2 :: '_' :: h1 :: h2 ::
      i1 :: i2 :: s1 :: s2 :: _ =>
    if y1.isDigit && y2.isDigit && y3.isDigit && y4.isDigit &&
       m1.isDigit && m2.isDigit && d1.isDigit && d2.isDigit &&
       h1.isDigit && h2.isDigit && i1.isDigit && i2.isDigit &&
       s1.isDigit && s2.isDigit then
      some ⟨(y1, y2, y3, y4), (m1, m2), (d1, d2), (h1, h2), (i1, i2), (s1, s2)⟩
    else none
  | _ => none

/-- Match Pattern B anchored at the start: the alternation tries the
literal `IMG` and then `PANO`, each followed by `_` and the digits. -/
def matchB : List Char → Option BGroups
  | 'I' :: 'M' :: 'G' :: '_' :: rest => matchBDigits rest
  | 'P' :: 'A' :: 'N' :: 'O' :: '_' :: rest => matchBDigits rest
  | _ => none

/-- `re.search` with Pattern B: leftmost match. -/
def searchB : List Char → Option BGroups
  | [] => none
  | c :: cs =>
    match matchB (c :: cs) with
    | some g => some g
    | none => searchB cs

/-- Python `int` on a string of digit characters. -/
def pyInt (cs : List Char) : Nat :=
  cs.foldl (fun n c => 10 * n + (c.toNat - 48)) 0

/-- The candidate components handed to `datetime(...)` for a Pattern A
match: `yyyy = f"20{yy}"`, then
`datetime(int(yyyy), int(mm), int(dd), int(hh), int(minute), int(ss))`.
The first two-digit group of the filename becomes the year. -/
def candidateOfA (g : AGroups) : RawDate :=
  { year := pyInt ['2', '0', g.yy.1, g.yy.2]
    month := pyInt [g.mm.1, g.mm.2]
    day := pyInt [g.dd.1, g.dd.2]
    hour := pyInt [g.hh.1, g.hh.2]
    minute := pyInt [g.mi.1, g.mi.2]
    second := pyInt [g.ss.1, g.ss.2] }

/-- The candidate components handed to `datetime(...)` for a Pattern B
match. -/
def candidateOfB (g : BGroups) : RawDate :=
  { year := pyInt [g.yyyy.1, g.yyyy.2.1, g.yyyy.2.2.1, g.yyyy.2.2.2]
    month := pyInt [g.mm.1, g.mm.2]
    day := pyInt [g.dd.1, g.dd.2]
    hour := pyInt [g.hh.1, g.hh.2]
    minute := pyInt [g.mi.1, g.mi.2]
    second := pyInt [g.ss.1, g.ss.2] }

/-! ### Per-file processing and the batch loop -/

/-- The one uncaught exception in the per-file body of
`find_and_set_exif_date`: the `ValueError` of `datetime(...)` on an
illegal calendar date.  Nothing in the loop catches it, so it aborts
the whole batch. -/
inductive PyErr where
  | valueError
deriving DecidableEq, Repr

/-- `file.lower().endswith(('.jpg', '.heic'))`. -/
def endsWithJpgOrHeic (file : String) : Bool :=
  let low := file.data.map Char.toLower
  List.isSuffixOf ".jpg".data low || List.isSuffixOf ".heic".data low

/-- One pattern step of the per-file body: search, derive the candidate,
construct the datetime (whose `ValueError` escapes uncaught), call
`set_exif_date(image_path, date, True)`, and thread the file's new
metadata state through.  Returns the updated state and the writes
issued. -/
def patternStep (search : List Char → Option RawDate) (file : List Char)
    (tags : ExifDates) : Except PyErr (ExifDates × List WriteTags) :=
  match search file with
  | none => Except.ok (tags, [])
  | some raw =>
    match mkDatetime raw with
    | none => Except.error PyErr.valueError
    | some date =>
      match set_exif_date tags date true with
      | none => Except.ok (tags, [])
      | some w => Except.ok (applyWrite tags w, [w])

/-- The per-file body of `find_and_set_exif_date`: extension gate, then
Pattern A, then — independently, even when A matched — Pattern B. -/
def processFile (file : String) (tags : ExifDates) :
    Except PyErr (ExifDates × List WriteTags) :=
  if endsWithJpgOrHeic file then
    match patternStep (fun cs => (searchA cs).map candidateOfA) file.data tags with
    | Except.error e => Except.error e
    | Except.ok (t1, w1) =>
      match patternStep (fun cs => (searchB cs).map candidateOfB) file.data t1 with
      | Except.error e => Except.error e
      | Except.ok (t2, w2) => Except.ok (t2, w1 ++ w2)
  else Except.ok (tags, [])

/-- The batch loop of `find_and_set_exif_date` over the enumerated
files (each given with its current EXIF timestamp state): sequential,
and an uncaught per-file error aborts the remainder of the batch. -/
def find_and_set_exif_date :
    List (String × ExifDates) → Except PyErr (List (String × List WriteTags))
  | [] => Except.ok []
  | (f, t) :: rest =>
    match processFile f t with
    | Except.error e => Except.error e
    | Except.ok (_, ws) =>
      match find_and_set_exif_date rest with
      | Except.error e => Except.error e
      | Except.ok tail => Except.ok ((f, ws) :: tail)

/-! ### Content-Tag Reconciler (`tagger.py`) -/

/-- Python whitespace as recognised by `str.strip()`. -/
def pySpace (c : Char) : Bool :=
  c == ' ' || c == '\t' || c == '\n' || c == '\r' || c == '\x0b' || c == '\x0c'

/-- Python `str.strip()`: remove leading and trailing whitespace. -/
def pyStrip (s : String) : String :=
  String.mk (((s.data.dropWhile pySpace).reverse.dropWhile pySpace).reverse)

/-- Python JSON values as produced by `json.loads`. -/
inductive JsonValue where
  | null
  | bool (b : Bool)
  | num (n : Int)
  | str (s : String)
  | arr (vs : List JsonValue)
  | obj (kvs : List (String × JsonValue))

/-- `parse_json_result(result)` from `tagger.py`: strip the input, run
`json.loads`, return the parsed value; the `except
json.JSONDecodeError` arm logs and returns `{}`.  `json.loads` is a
library function, passed in as a parameter of type
`String → Except String JsonValue` (a parsed value or a decode
error). -/
def parse_json_result (loads : String → Except String JsonValue)
    (result : String) : JsonValue :=
  match loads (pyStrip result) with
  | Except.ok v => v
  | Except.error _ => JsonValue.obj []

/-- Python `dict.get(key, default)`; on a non-dict value, attribute
lookup of `get` raises (`AttributeError`). -/
def jsonGet (j : JsonValue) (key : String) (dflt : JsonValue) :
    Except String JsonValue :=
  match j with
  | JsonValue.obj kvs => Except.ok ((kvs.lookup key).getD dflt)
  | _ => Except.error "AttributeError"

/-- `[tag.strip() for tag in tags]`: over a list it strips each string
element (a non-string element has no `.strip`); iterating a string
yields its one-character strings; any other value is not iterable. -/
def stripEach : JsonValue → Except String (List String)
  | JsonValue.arr vs =>
    vs.mapM (fun v =>
      match v with
      | JsonValue.str s => Except.ok (pyStrip s)
      | _ => Except.error "AttributeError")
  | JsonValue.str s =>
    Except.ok (s.data.map (fun c => pyStrip (String.mk [c])))
  | _ => Except.error "TypeError"

/-- `result.get("tags", [])` followed by the strip comprehension. -/
def extractTags (result : JsonValue) : Except String (List String) := do
  let v ← jsonGet result "tags" (JsonValue.arr [])
  stripEach v

/-- `result.get(key, "").strip()`. -/
def stripField (result : JsonValue) (key : String) : Except String String := do
  let v ← jsonGet result key (JsonValue.str "")
  match v with
  | JsonValue.str s => Except.ok (pyStrip s)
  | _ => Except.error "AttributeError"

/-- The descriptive-metadata read performed by `process_image`:
whether the keys `XMP:Subject` and `IPTC:Keywords` are present in the
dict returned by `helper.get_tags(image_path,
tags=["XMP-dc:Subject", "IPTC:Keywords"])`. -/
structure TagsRead where
  hasXmpSubject : Bool
  hasIptcKeywords : Bool
deriving DecidableEq, Repr

/-- The dict passed to `helper.set_tags` by `process_image`, field by
field: `IPTC:Keywords` and `XMP-dc:Subject` carry the tag list;
`IPTC:Writer-Editor` the model identifier; `IPTC:Headline`,
`XMP-dc:Title` and `EXIF:ImageDescription` the headline;
`IPTC:Caption-Abstract` and `XMP-dc:Description` the abstract. -/
structure TagWrite where
  iptcKeywords : List String
  xmpSubject : List String
  iptcWriterEditor : String
  iptcHeadline : String
  xmpTitle : String
  exifImageDescription : String
  iptcCaptionAbstract : String
  xmpDescription : String
deriving DecidableEq, Repr

/-- Outcome of `process_image` on one file: whether a request was made
to the content-description provider, and the metadata write issued, if
any. -/
structure ProcessResult where
  providerCalled : Bool
  write : Option TagWrite
deriving DecidableEq, Repr

/-- `process_image(image_path, model, overwrite)` from `tagger.py`.
`meta` is the result of the initial `get_tags` read; `providerResp` is
the (possibly raising) call to `describe_image_by_model` — the HEIC
conversion only changes which bytes are sent, so it is folded into this
input; `loads` models `json.loads`.  The whole body runs under
`try/except Exception`, so any raised error results in no write. -/
def process_image (meta : TagsRead) (overwrite : Bool)
    (providerResp : Except String String)
    (loads : String → Except String JsonValue) (model : String) :
    ProcessResult :=
  if !overwrite && (meta.hasXmpSubject || meta.hasIptcKeywords) then
    { providerCalled := false, write := none }
  else
    match providerResp with
    | Except.error _ => { providerCalled := true, write := none }
    | Except.ok json_result =>
      let result := parse_json_result loads json_result
      match extractTags result, stripField result "headline",
            stripField result "abstract" with
      | Except.ok tags, Except.ok headline, Except.ok abstract =>
        { providerCalled := true
          write := some
            { iptcKeywords := tags
              xmpSubject := tags
              iptcWriterEditor := model
              iptcHeadline := headline
              xmpTitle := headline
              exifImageDescription := headline
              iptcCaptionAbstract := abstract
              xmpDescription := abstract } }
      | _, _, _ => { providerCalled := true, write := none }

/-! ### Sample dates shared by witnesses -/

def dEarly : RawDate := ⟨2020, 1, 1, 0, 0, 0⟩

def dCand : RawDate := ⟨2023, 5, 24, 14, 30, 5⟩

/-! ### Claims about `set_exif_date` -/

/-- Claim C2: for a MediaFile whose metadata lacks the original-capture
field or lacks the create field, the reconciler writes all three
timestamp fields set identically to the candidate, with no tolerance
comparison. -/
theorem set_exif_date_fills_when_missing (o c md : Option RawDate)
    (d : RawDate) (h : o = none ∨ c = none) :
    set_exif_date ⟨o, c, md⟩ d true =
      some [(ExifTag.dateTimeOriginal, d), (ExifTag.createDate, d),
            (ExifTag.modifyDate, d)] := by
  rcases h with h | h <;> subst h
  · cases c <;> rfl
  · cases o <;> rfl

/-- Claim C2 witness: a file with no create date gets all three fields
filled with the candidate. -/
theorem set_exif_date_fills_when_missing_witness :
    set_exif_date ⟨some dEarly, none, none⟩ dCand true =
      some [(ExifTag.dateTimeOriginal, dCand), (ExifTag.createDate, dCand),
            (ExifTag.modifyDate, dCand)] :=
  set_exif_date_fills_when_missing (some dEarly) none none dCand (Or.inr rfl)

/-- Claim C3: when the existing original-capture and create dates are
both within 24 hours of the candidate, no write occurs, so re-running
reconciliation on an already-correct file is a no-op. -/
theorem set_exif_date_noop_within_tolerance (orig cr : RawDate)
    (md : Option RawDate) (d : RawDate)
    (h1 : dates_differ_more_than_24_hours d orig = false)
    (h2 : dates_differ_more_than_24_hours d cr = false) :
    set_exif_date ⟨some orig, some cr, md⟩ d true = none := by
  cases md with
  | none => rfl
  | some m => simp [set_exif_date, h1, h2]

/-- Claim C3 witness: a file whose three tags already equal the
candidate is left untouched. -/
theorem set_exif_date_noop_within_tolerance_witness :
    set_exif_date ⟨some dCand, some dCand, some dCand⟩ dCand true = none :=
  set_exif_date_noop_within_tolerance dCand dCand (some dCand) dCand rfl rfl

/-- Claim C1 counterexample: a file whose metadata has original-capture
and create-date (both more than 24 hours from the candidate) but no
modify-date gets NO write — the unconditional
`tags[0]["EXIF:ModifyDate"]` lookup raises `KeyError`, which the
enclosing `except` swallows — although the claim requires a write for
every file with original-capture and create-date present. -/
theorem set_exif_date_no_write_without_modify_tag :
    set_exif_date ⟨some dEarly, some dEarly, none⟩ dCand true = none ∧
      dates_differ_more_than_24_hours dCand dEarly = true := by
  exact ⟨rfl, by decide⟩

/-- Claim C1 (amended): for a MediaFile whose metadata contains all
three timestamps (original-capture, create and modify), if the
candidate differs from the existing original-capture by more than 24
hours or from the existing create-date by more than 24 hours, the
reconciler issues a write setting original-capture to the candidate and
both create-date and modify-date to the pre-update original-capture
value. -/
theorem set_exif_date_corrects_original_when_stale (orig cr m d : RawDate)
    (h : (dates_differ_more_than_24_hours d orig ||
          dates_differ_more_than_24_hours d cr) = true) :
    set_exif_date ⟨some orig, some cr, some m⟩ d true =
      some [(ExifTag.dateTimeOriginal, d), (ExifTag.createDate, orig),
            (ExifTag.modifyDate, orig)] := by
  simp [set_exif_date, h]

/-- Claim C1 (amended) witness: a stale original date is replaced by
the candidate while create/modify receive the old original value. -/
theorem set_exif_date_corrects_original_when_stale_witness :
    set_exif_date ⟨some dEarly, some dEarly, some dEarly⟩ dCand true =
      some [(ExifTag.dateTimeOriginal, dCand), (ExifTag.createDate, dEarly),
            (ExifTag.modifyDate, dEarly)] :=
  set_exif_date_corrects_original_when_stale dEarly dEarly dEarly dCand
    (by decide)

/-- Claim C9: every write issued by `set_exif_date` carries exactly the
three timestamp fields original-capture, create and modify — never a
strict subset. -/
theorem set_exif_date_write_has_three_fields (t : ExifDates) (d : RawDate)
    (m : Bool) (w : WriteTags) (h : set_exif_date t d m = some w) :
    w.map Prod.fst =
      [ExifTag.dateTimeOriginal, ExifTag.createDate, ExifTag.modifyDate] := by
  rcases t with ⟨o, c, md⟩
  cases o <;> cases c <;> cases md <;> cases m <;>
    simp [set_exif_date] at h
  all_goals try obtain ⟨-, h⟩ := h
  all_goals try subst h
  all_goals rfl

/-- Claim C9 witness: the fill write carries exactly the three
timestamp fields. -/
theorem set_exif_date_write_has_three_fields_witness :
    ([(ExifTag.dateTimeOriginal, dCand), (ExifTag.createDate, dCand),
      (ExifTag.modifyDate, dCand)] : WriteTags).map Prod.fst =
      [ExifTag.dateTimeOriginal, ExifTag.createDate, ExifTag.modifyDate] :=
  set_exif_date_write_has_three_fields ⟨none, none, none⟩ dCand true _ rfl

/-! ### Claims about the filename patterns and the batch loop -/

/-- Claim C4 counterexample: on `23-05-24 14-30-05_trip.jpg` with no
existing metadata, the single write produced sets all three fields to
2023-05-24T14:30:05, not to the 2024-05-23T14:30:05 the claim predicts:
the code unpacks the three leading two-digit groups as `yy, mm, dd`, so
the first field is the year, not the day. -/
theorem patternA_field_order_counterexample :
    processFile "23-05-24 14-30-05_trip.jpg" ⟨none, none, none⟩ =
      Except.ok
        (⟨some ⟨2023, 5, 24, 14, 30, 5⟩, some ⟨2023, 5, 24, 14, 30, 5⟩,
          some ⟨2023, 5, 24, 14, 30, 5⟩⟩,
         [[(ExifTag.dateTimeOriginal, ⟨2023, 5, 24, 14, 30, 5⟩),
           (ExifTag.createDate, ⟨2023, 5, 24, 14, 30, 5⟩),
           (ExifTag.modifyDate, ⟨2023, 5, 24, 14, 30, 5⟩)]]) ∧
      (⟨2023, 5, 24, 14, 30, 5⟩ : RawDate) ≠ ⟨2024, 5, 23, 14, 30, 5⟩ :=
  ⟨rfl, by decide⟩

/-- Claim C4 (amended): Pattern A interprets the three leading
two-digit fields of the filename in year-month-day order: for the
filename `23-05-24 14-30-05_trip.jpg` with no existing metadata, the
Timestamp Reconciler writes original = create = modify =
2023-05-24T14:30:05. -/
theorem patternA_year_month_day_order :
    processFile "23-05-24 14-30-05_trip.jpg" ⟨none, none, none⟩ =
      Except.ok
        (⟨some ⟨2023, 5, 24, 14, 30, 5⟩, some ⟨2023, 5, 24, 14, 30, 5⟩,
          some ⟨2023, 5, 24, 14, 30, 5⟩⟩,
         [[(ExifTag.dateTimeOriginal, ⟨2023, 5, 24, 14, 30, 5⟩),
           (ExifTag.createDate, ⟨2023, 5, 24, 14, 30, 5⟩),
           (ExifTag.modifyDate, ⟨2023, 5, 24, 14, 30, 5⟩)]]) :=
  rfl

/-- Claim C5 counterexample: a batch holding a file whose name matches
Pattern A with month 13 followed by a well-formed file aborts with the
uncaught `ValueError` — the second file is never processed — instead of
skipping the bad file and continuing as the claim states. -/
theorem invalid_date_aborts_batch_counterexample :
    find_and_set_exif_date
      [("23-13-05 10-10-10.jpg", ⟨none, none, none⟩),
       ("23-05-24 14-30-05.jpg", ⟨none, none, none⟩)] =
      Except.error PyErr.valueError :=
  rfl

/-- Claim C5 (amended): a filename that matches a pattern but yields an
invalid calendar date raises a `ValueError` that nothing in
`find_and_set_exif_date` catches: the batch aborts at that file and the
remaining files are not processed. -/
theorem invalid_date_aborts_batch (f : String) (t : ExifDates)
    (rest : List (String × ExifDates)) (g : AGroups)
    (h1 : endsWithJpgOrHeic f = true) (h2 : searchA f.data = some g)
    (h3 : validDate (candidateOfA g) = false) :
    find_and_set_exif_date ((f, t) :: rest) =
      Except.error PyErr.valueError := by
  have hpf : processFile f t = Except.error PyErr.valueError := by
    simp [processFile, patternStep, h1, h2, mkDatetime, h3]
  simp [find_and_set_exif_date, hpf]

/-- Claim C5 (amended) witness: the month-13 filename aborts a
two-file batch. -/
theorem invalid_date_aborts_batch_witness :
    find_and_set_exif_date
      [("23-13-05 10-10-10.jpg", ⟨none, none, none⟩),
       ("23-05-24 14-30-05.jpg", ⟨none, none, none⟩)] =
      Except.error PyErr.valueError :=
  invalid_date_aborts_batch "23-13-05 10-10-10.jpg" ⟨none, none, none⟩
    [("23-05-24 14-30-05.jpg", ⟨none, none, none⟩)]
    ⟨('2', '3'), ('1', '3'), ('0', '5'), ('1', '0'), ('1', '0'), ('1', '0')⟩
    rfl rfl (by decide)

/-- Claim C8: for every filename matching Pattern A, the year of the
derived candidate equals `2000 + YY` where `YY` is the two-digit group
the code uses as the year (the century is the fixed prefix `"20"`, not
calendar-relative). -/
theorem patternA_century_fixed (cs : List Char) (g : AGroups)
    (h : searchA cs = some g) :
    (candidateOfA g).year = 2000 + pyInt [g.yy.1, g.yy.2] := by
  have h2 : ('2' : Char).toNat = 50 := rfl
  have h0 : ('0' : Char).toNat = 48 := rfl
  simp [candidateOfA, pyInt, List.foldl, h2, h0]
  omega

/-- Claim C8 witness: the file `99-01-02 03-04-05.jpg` matches Pattern
A and its derived year is 2000 + 99. -/
theorem patternA_century_fixed_witness :
    (candidateOfA ⟨('9', '9'), ('0', '1'), ('0', '2'), ('0', '3'),
      ('0', '4'), ('0', '5')⟩).year = 2000 +
      pyInt ['9', '9'] :=
  patternA_century_fixed "99-01-02 03-04-05.jpg".data
    ⟨('9', '9'), ('0', '1'), ('0', '2'), ('0', '3'), ('0', '4'), ('0', '5')⟩
    rfl

/-! ### Claims about the Content-Tag Reconciler -/

/-- Claim C6: for a file whose metadata has a populated subject or
keywords alias field, with overwrite off, the reconciler neither calls
the content-description provider nor writes any metadata. -/
theorem process_image_skips_when_tagged (meta : TagsRead)
    (resp : Except String String) (loads : String → Except String JsonValue)
    (model : String) (h : (meta.hasXmpSubject || meta.hasIptcKeywords) = true) :
    process_image meta false resp loads model =
      { providerCalled := false, write := none } := by
  simp [process_image, h]

/-- Claim C6 witness: a file with a populated subject field is skipped
outright. -/
theorem process_image_skips_when_tagged_witness :
    process_image ⟨true, false⟩ false (Except.ok "irrelevant")
      (fun _ => Except.ok JsonValue.null) "gemma3:27b" =
      { providerCalled := false, write := none } :=
  process_image_skips_when_tagged ⟨true, false⟩ (Except.ok "irrelevant")
    (fun _ => Except.ok JsonValue.null) "gemma3:27b" rfl

/-- Claim C7 counterexample: a provider response that is valid JSON but
has no `headline` key (here the empty object) does NOT abort the file's
update: `process_image` still issues a full metadata write, with the
empty-string/empty-list defaults substituted by `result.get`, so the
claimed "no metadata write at all" is false. -/
theorem process_image_missing_headline_still_writes :
    process_image ⟨false, false⟩ false (Except.ok "{}")
      (fun _ => Except.ok (JsonValue.obj [])) "gemma3:27b" =
      { providerCalled := true
        write := some ⟨[], [], "gemma3:27b", "", "", "", "", ""⟩ } ∧
    some (⟨[], [], "gemma3:27b", "", "", "", "", ""⟩ : TagWrite) ≠
      (none : Option TagWrite) :=
  ⟨rfl, by decide⟩

/-- Claim C7 (amended): a provider response that fails to parse as JSON
or parses to an object missing the tags/headline/abstract fields does
not abort the update; `process_image` substitutes the defaults of
`dict.get` (empty tag list, empty strings) and issues the full
eight-field write carrying those defaults. -/
theorem process_image_defaults_on_missing_fields (meta : TagsRead)
    (loads : String → Except String JsonValue) (r model : String)
    (hs : meta.hasXmpSubject = false) (hk : meta.hasIptcKeywords = false)
    (h : (∃ e, loads (pyStrip r) = Except.error e) ∨
         (∃ kvs, loads (pyStrip r) = Except.ok (JsonValue.obj kvs) ∧
            kvs.lookup "tags" = none ∧ kvs.lookup "headline" = none ∧
            kvs.lookup "abstract" = none)) :
    process_image meta false (Except.ok r) loads model =
      { providerCalled := true
        write := some ⟨[], [], model, "", "", "", "", ""⟩ } := by
  rcases h with ⟨e, he⟩ | ⟨kvs, hok, ht, hh, ha⟩
  · simp only [process_image, hs, hk, parse_json_result, he, extractTags,
      jsonGet, stripEach, stripField, Bool.or_self, Bool.and_false]
    rfl
  · simp only [process_image, hs, hk, parse_json_result, hok, extractTags,
      jsonGet, stripEach, stripField, ht, hh, ha, Bool.or_self, Bool.and_false]
    rfl

/-- Claim C7 (amended) witness: an unparseable provider response leads
to a write of all-default values. -/
theorem process_image_defaults_on_missing_fields_witness :
    process_image ⟨false, false⟩ false (Except.ok "not json")
      (fun _ => Except.error "JSONDecodeError") "gemma3:27b" =
      { providerCalled := true
        write := some ⟨[], [], "gemma3:27b", "", "", "", "", ""⟩ } :=
  process_image_defaults_on_missing_fields ⟨false, false⟩
    (fun _ => Except.error "JSONDecodeError") "not json" "gemma3:27b"
    rfl rfl (Or.inl ⟨"JSONDecodeError", rfl⟩)

/-- Claim C10: `parse_json_result` is total: for every input it either
returns the value `json.loads` parses from the stripped input, or, when
decoding fails, returns the empty dictionary — no exception reaches the
caller. -/
theorem parse_json_result_total (loads : String → Except String JsonValue)
    (s : String) :
    (∃ v, loads (pyStrip s) = Except.ok v ∧ parse_json_result loads s = v) ∨
    ((∃ e, loads (pyStrip s) = Except.error e) ∧
      parse_json_result loads s = JsonValue.obj []) := by
  cases h : loads (pyStrip s) with
  | ok v => exact Or.inl ⟨v, rfl, by simp [parse_json_result, h]⟩
  | error e => exact Or.inr ⟨⟨e, rfl⟩, by simp [parse_json_result, h]⟩
